import Mathlib

/-!
Formal model of the checkpoint, evaluation and voting logic of the
6-pic-vote-mobilenet training harness (src/models/BasicModule.py and
src/data_loader.py).  Machine floats are modelled as rationals (only
order comparisons, addition and division by sample counts occur in the
modelled code), the filesystem as an explicit record of directories and
an association of paths to checkpoint records, the parameter blob as an
abstract type `P`, and the background saver thread as an explicit
interleaving choice (for the best-loss trace) or a timestamped schedule
(for the mutual-exclusion property).
-/

set_option maxHeartbeats 1000000

/-- Configuration object (config.Config): exactly the fields read by the
modelled methods of BasicModule.  THREADHOLD keeps the source's spelling. -/
structure Opt where
  NET_SAVE_PATH : String
  MODEL : String
  PROCESS_ID : String
  SAVE_EVERY : Nat
  NUM_EVAL : Nat
  TOP_NUM : Nat
  THREADHOLD : Rat
  SAVE_TEMP_MODEL : Bool
  SAVE_BEST_MODEL : Bool
  deriving DecidableEq

/-- The record torch.save writes in BasicModule.save (lines 122-126):
keys epoch, state_dict, best_loss. -/
structure Checkpoint (P : Type) where
  epoch : Nat
  state_dict : P
  best_loss : Rat
  deriving DecidableEq

/-- The mutable fields of a BasicModule instance touched by load/save
(model_name, best_loss, pre_epoch and the parameter blob returned by
state_dict / consumed by load_state_dict). -/
structure NetMod (P : Type) where
  model_name : String
  best_loss : Rat
  pre_epoch : Nat
  params : P
  deriving DecidableEq

/-- Filesystem state: the set of existing directories and the contents of
checkpoint files, keyed by full path.  A write prepends and lookup takes
the first hit, so a write replaces the path's visible prior contents. -/
structure FS (P : Type) where
  dirs : List String
  files : List (String × Checkpoint P)
  deriving DecidableEq

def FS.hasDir {P : Type} (fs : FS P) (d : String) : Bool :=
  fs.dirs.contains d

def FS.mkdir {P : Type} (fs : FS P) (d : String) : FS P :=
  ⟨d :: fs.dirs, fs.files⟩

def FS.read {P : Type} (fs : FS P) (p : String) : Option (Checkpoint P) :=
  fs.files.lookup p

def FS.write {P : Type} (fs : FS P) (p : String) (c : Checkpoint P) : FS P :=
  ⟨fs.dirs, (p, c) :: fs.files⟩

@[simp]
theorem FS.read_write_self {P : Type} (fs : FS P) (p : String) (c : Checkpoint P) :
    (fs.write p c).read p = some c := by
  simp [FS.read, FS.write, List.lookup]

@[simp]
theorem FS.read_mkdir {P : Type} (fs : FS P) (d p : String) :
    (fs.mkdir d).read p = fs.read p := rfl

@[simp]
theorem FS.read_ite_mkdir {P : Type} (c : Prop) [Decidable c] (fs : FS P) (d p : String) :
    (if c then fs else fs.mkdir d).read p = fs.read p := by
  split <;> rfl

@[simp]
theorem FS.files_ite_mkdir {P : Type} (c : Prop) [Decidable c] (fs : FS P) (d : String) :
    (if c then fs else fs.mkdir d).files = fs.files := by
  split <;> rfl

@[simp]
theorem FS.hasDir_mkdir_self {P : Type} (fs : FS P) (d : String) :
    (fs.mkdir d).hasDir d = true := by
  simp [FS.hasDir, FS.mkdir]

@[simp]
theorem FS.files_mkdir {P : Type} (fs : FS P) (d : String) :
    (fs.mkdir d).files = fs.files := rfl

/-- The per-run directory net_save_prefix built in load/save (lines 82, 110-111):
NET_SAVE_PATH + MODEL + '_' + PROCESS_ID + '/'. -/
def runDirOf (opt : Opt) : String :=
  opt.NET_SAVE_PATH ++ opt.MODEL ++ "_" ++ opt.PROCESS_ID ++ "/"

/-- Best-loss update performed at the top of BasicModule.save (lines 105-106):
if loss < self.best_loss then self.best_loss = loss. -/
def saveBestUpdate (loss b : Rat) : Rat :=
  if loss < b then loss else b

/-- Full path of the file BasicModule.save writes: the opt=None branch uses
"./source/trained_net/<model_name>/", otherwise the run directory; a missing
name defaults to "temp_model.dat" (lines 107-117). -/
def savePath {P : Type} (optO : Option Opt) (m : NetMod P) (nameOpt : Option String) : String :=
  (match optO with
   | none => "./source/trained_net/" ++ m.model_name ++ "/"
   | some o => runDirOf o) ++ nameOpt.getD "temp_model.dat"

/-- BasicModule.save (lines 95-126): updates best_loss, creates the run
directory when opt is present and the directory is missing, and writes the
checkpoint record {epoch: epoch+1, state_dict, best_loss} at the target path. -/
def save {P : Type} (optO : Option Opt) (m : NetMod P) (fs : FS P)
    (epoch : Nat) (loss : Rat) (nameOpt : Option String) : NetMod P × FS P :=
  let best := saveBestUpdate loss m.best_loss
  let fs1 : FS P :=
    match optO with
    | none => fs
    | some o => if fs.hasDir (runDirOf o) then fs else fs.mkdir (runDirOf o)
  (⟨m.model_name, best, m.pre_epoch, m.params⟩,
   fs1.write (savePath optO m nameOpt) ⟨epoch + 1, m.params, best⟩)

/-- Outcome of BasicModule.load: either the checkpoint was found and
deserialized, or the method printed "doesn't exist" and returned (NotFound). -/
inductive LoadResult where
  | loaded
  | notFound
  deriving DecidableEq

/-- Caller-visible state after BasicModule.load: the module, the filesystem
and which branch was taken. -/
structure LoadOut (P : Type) where
  m : NetMod P
  fs : FS P
  res : LoadResult
  deriving DecidableEq

/-- BasicModule.load (lines 70-93): builds the run directory path, creates the
directory if it does not exist, then if the target file exists restores
pre_epoch, best_loss and the parameter blob from it, else leaves the module
unchanged and reports that the model does not exist. -/
def load {P : Type} (opt : Opt) (m : NetMod P) (fs : FS P) (modelType : String) : LoadOut P :=
  let dir := runDirOf opt
  let fs1 := if fs.hasDir dir then fs else fs.mkdir dir
  match fs1.read (dir ++ modelType) with
  | some cp => ⟨⟨m.model_name, cp.best_loss, cp.epoch, cp.state_dict⟩, fs1, LoadResult.loaded⟩
  | none => ⟨m, fs1, LoadResult.notFound⟩

/-- C4: for every call save(epoch, loss, name), the record written to the
target file holds epoch + 1 (the next epoch to run), the module's parameter
blob, and the stored (just-updated) best_loss, and reading that path now
yields this record regardless of the file's prior contents. -/
theorem save_writes_incremented_epoch_record {P : Type} (optO : Option Opt)
    (m : NetMod P) (fs : FS P) (epoch : Nat) (loss : Rat) (nameOpt : Option String) :
    (save optO m fs epoch loss nameOpt).2.read (savePath optO m nameOpt) =
      some ⟨epoch + 1, m.params, (save optO m fs epoch loss nameOpt).1.best_loss⟩ ∧
    (save optO m fs epoch loss nameOpt).1.best_loss =
      (if loss < m.best_loss then loss else m.best_loss) := by
  constructor
  · simp [save]
  · simp [save, saveBestUpdate]

/-- C1 (amended): save with epoch e, loss l and parameters P followed by load
on the same slot yields a module whose pre_epoch equals e + 1 (the stored
next-epoch marker), whose best_loss equals the best_loss that was saved, and
whose parameter blob equals P. -/
theorem save_load_roundtrip {P : Type} (opt : Opt) (m : NetMod P) (fs : FS P)
    (e : Nat) (l : Rat) (nm : String) :
    (load opt (save (some opt) m fs e l (some nm)).1 (save (some opt) m fs e l (some nm)).2 nm).res
        = LoadResult.loaded ∧
    (load opt (save (some opt) m fs e l (some nm)).1 (save (some opt) m fs e l (some nm)).2 nm).m.pre_epoch
        = e + 1 ∧
    (load opt (save (some opt) m fs e l (some nm)).1 (save (some opt) m fs e l (some nm)).2 nm).m.best_loss
        = (save (some opt) m fs e l (some nm)).1.best_loss ∧
    (load opt (save (some opt) m fs e l (some nm)).1 (save (some opt) m fs e l (some nm)).2 nm).m.params
        = m.params := by
  simp [load, save, savePath, Option.getD, FS.read_ite_mkdir, FS.read_write_self]

def c1Opt : Opt :=
  ⟨"./source/trained_net/", "MobileNetV2", "01", 1, 1, 1, 1/2, true, true⟩

def c1Mod : NetMod Nat := ⟨"MobileNetV2", 100000000, 0, 42⟩

def c1Fs : FS Nat := ⟨[], []⟩

/-- C1 counterexample: after save with epoch 4, loss 0.3 and parameter blob 42
on the Temp slot, load on the same slot returns a module whose pre_epoch is 5,
not 4 as the claim states. -/
theorem save_load_epoch_counterexample :
    (load c1Opt (save (some c1Opt) c1Mod c1Fs 4 (3/10) (some "temp_model.dat")).1
        (save (some c1Opt) c1Mod c1Fs 4 (3/10) (some "temp_model.dat")).2
        "temp_model.dat").m.pre_epoch = 5 ∧
    ¬ ((load c1Opt (save (some c1Opt) c1Mod c1Fs 4 (3/10) (some "temp_model.dat")).1
        (save (some c1Opt) c1Mod c1Fs 4 (3/10) (some "temp_model.dat")).2
        "temp_model.dat").m.pre_epoch = 4) := by
  constructor
  · rfl
  · intro h
    exact absurd h (by decide)

/-- C5: branch behavior of BasicModule.load.  If the run directory does not
exist, load creates it and reports NotFound, leaving files and the module
untouched; if the directory exists but the file does not, load reports
NotFound touching nothing; if the file exists, load restores pre_epoch,
best_loss and the parameter blob from the checkpoint.  The second hypothesis
of the first branch records the filesystem reality that a file cannot exist
inside a directory that does not exist. -/
theorem load_branch_behavior {P : Type} (opt : Opt) (m : NetMod P) (fs : FS P) (nm : String) :
    (fs.hasDir (runDirOf opt) = false →
       fs.read (runDirOf opt ++ nm) = none →
       (load opt m fs nm).res = LoadResult.notFound ∧
       (load opt m fs nm).fs.hasDir (runDirOf opt) = true ∧
       (load opt m fs nm).fs.files = fs.files ∧
       (load opt m fs nm).m = m) ∧
    (fs.hasDir (runDirOf opt) = true →
       fs.read (runDirOf opt ++ nm) = none →
       (load opt m fs nm).res = LoadResult.notFound ∧
       (load opt m fs nm).fs = fs ∧
       (load opt m fs nm).m = m) ∧
    (∀ cp : Checkpoint P,
       fs.read (runDirOf opt ++ nm) = some cp →
       (load opt m fs nm).res = LoadResult.loaded ∧
       (load opt m fs nm).m.pre_epoch = cp.epoch ∧
       (load opt m fs nm).m.best_loss = cp.best_loss ∧
       (load opt m fs nm).m.params = cp.state_dict ∧
       (load opt m fs nm).fs.files = fs.files) := by
  refine ⟨?_, ?_, ?_⟩
  · intro h1 h2
    simp [load, h1, h2]
  · intro h1 h2
    simp [load, h1, h2]
  · intro cp h
    simp [load, h]

def c5Opt : Opt := ⟨"root/", "MobileNetV2", "01", 1, 1, 1, 1/2, true, true⟩

def c5Mod : NetMod Nat := ⟨"MobileNetV2", 100000000, 0, 7⟩

def c5FsA : FS Nat := ⟨[], []⟩

def c5FsB : FS Nat := ⟨["root/MobileNetV2_01/"], []⟩

def c5Cp : Checkpoint Nat := ⟨5, 42, 3/10⟩

def c5FsC : FS Nat :=
  ⟨["root/MobileNetV2_01/"], [("root/MobileNetV2_01/temp_model.dat", c5Cp)]⟩

/-- C5 witness: the three load branches evaluated on concrete filesystems. -/
theorem load_branch_behavior_witness :
    ((load c5Opt c5Mod c5FsA "temp_model.dat").res = LoadResult.notFound ∧
     (load c5Opt c5Mod c5FsA "temp_model.dat").fs.hasDir (runDirOf c5Opt) = true ∧
     (load c5Opt c5Mod c5FsA "temp_model.dat").fs.files = c5FsA.files ∧
     (load c5Opt c5Mod c5FsA "temp_model.dat").m = c5Mod) ∧
    ((load c5Opt c5Mod c5FsB "temp_model.dat").res = LoadResult.notFound ∧
     (load c5Opt c5Mod c5FsB "temp_model.dat").fs = c5FsB ∧
     (load c5Opt c5Mod c5FsB "temp_model.dat").m = c5Mod) ∧
    ((load c5Opt c5Mod c5FsC "temp_model.dat").res = LoadResult.loaded ∧
     (load c5Opt c5Mod c5FsC "temp_model.dat").m.pre_epoch = c5Cp.epoch ∧
     (load c5Opt c5Mod c5FsC "temp_model.dat").m.best_loss = c5Cp.best_loss ∧
     (load c5Opt c5Mod c5FsC "temp_model.dat").m.params = c5Cp.state_dict ∧
     (load c5Opt c5Mod c5FsC "temp_model.dat").fs.files = c5FsC.files) :=
  ⟨(load_branch_behavior c5Opt c5Mod c5FsA "temp_model.dat").1 (by decide) (by decide),
   (load_branch_behavior c5Opt c5Mod c5FsB "temp_model.dat").2.1 (by decide) (by decide),
   (load_branch_behavior c5Opt c5Mod c5FsC "temp_model.dat").2.2 c5Cp rfl⟩

/-- Insertion of a (score, class index) pair into a list sorted by score in
descending order. -/
def insertDesc (p : Rat × Nat) : List (Rat × Nat) → List (Rat × Nat)
  | [] => [p]
  | q :: t => if q.1 < p.1 then p :: q :: t else q :: insertDesc p t

def sortPairsDesc (l : List (Rat × Nat)) : List (Rat × Nat) :=
  l.foldr insertDesc []

/-- One row of outputs.sort(descending=True): (score, class index) pairs in
descending-score order. -/
def rowPairsDesc (row : List Rat) : List (Rat × Nat) :=
  sortPairsDesc (row.enum.map (fun iv => (iv.2, iv.1)))

/-- One row of outputs.sort(descending=True)[1]: class indices in
descending-score order. -/
def argsortDesc (row : List Rat) : List Nat :=
  (rowPairsDesc row).map (fun p => p.2)

/-- Top-1 confidence of a row: outputs.sort(descending=True)[0][:, 0]
(vote_eval line 245). -/
def rowTop1Val (row : List Rat) : Rat :=
  ((rowPairsDesc row).headD (0, 0)).1

/-- Top-1 class of a row: outputs.sort(descending=True)[1][:, 0]
(vote_eval line 244). -/
def rowTop1Idx (row : List Rat) : Nat :=
  ((rowPairsDesc row).headD (0, 0)).2

/-- The membership test `label in predict` with predict the first TOP_NUM
entries of the descending argsort (validate lines 205-208). -/
def topkHit (topNum : Nat) (row : List Rat) (label : Nat) : Bool :=
  decide (label ∈ (argsortDesc row).take topNum)

/-- Top-K hits contributed by one batch: output rows zipped with labels as in
validate line 206. -/
def batchHits (topNum : Nat) (b : List (List Rat) × List Nat) : Nat :=
  (b.1.zip b.2).countP (fun s => topkHit topNum s.1 s.2)

/-- BasicModule.validate (lines 187-209): sums the criterion loss over the
batches, counts top-K hits, and divides both totals by opt.NUM_EVAL. -/
def validate (opt : Opt) (crit : List (List Rat) → List Nat → Rat)
    (batches : List (List (List Rat) × List Nat)) : Rat × Rat :=
  ((batches.map (fun b => crit b.1 b.2)).sum / (opt.NUM_EVAL : Rat),
   ((batches.map (batchHits opt.TOP_NUM)).sum : Rat) / (opt.NUM_EVAL : Rat))

theorem mem_take_mono {α : Type} {l : List α} {m n : Nat} (h : m ≤ n) {a : α}
    (ha : a ∈ l.take m) : a ∈ l.take n := by
  have h1 : (l.take n).take m = l.take m := by
    rw [List.take_take, Nat.min_eq_left h]
  rw [← h1] at ha
  exact List.take_subset _ _ ha

theorem countP_le_countP {α : Type} {p q : α → Bool}
    (h : ∀ a, p a = true → q a = true) (l : List α) :
    l.countP p ≤ l.countP q := by
  induction l with
  | nil => simp
  | cons a t ih =>
    by_cases hp : p a = true
    · have hq := h a hp
      simp [List.countP_cons, hp, hq]
      omega
    · simp [List.countP_cons, hp]
      split <;> omega

theorem sum_map_le_sum_map {α : Type} (f g : α → Nat) (h : ∀ a, f a ≤ g a) (l : List α) :
    (l.map f).sum ≤ (l.map g).sum := by
  induction l with
  | nil => simp
  | cons a t ih =>
    simp only [List.map_cons, List.sum_cons]
    exact Nat.add_le_add (h a) ih

/-- C8: for fixed outputs and labels, the top-K accuracy returned by validate
is monotonically non-decreasing in TOP_NUM (the other configuration fields
being equal where they matter, i.e. NUM_EVAL). -/
theorem validate_topk_acc_monotone (opt1 opt2 : Opt)
    (crit : List (List Rat) → List Nat → Rat)
    (batches : List (List (List Rat) × List Nat))
    (hK : opt1.TOP_NUM ≤ opt2.TOP_NUM) (hN : opt1.NUM_EVAL = opt2.NUM_EVAL) :
    (validate opt1 crit batches).2 ≤ (validate opt2 crit batches).2 := by
  have hhit : ∀ s : List Rat × Nat,
      topkHit opt1.TOP_NUM s.1 s.2 = true → topkHit opt2.TOP_NUM s.1 s.2 = true := by
    intro s hs
    exact decide_eq_true (mem_take_mono hK (of_decide_eq_true hs))
  have hsum : (batches.map (batchHits opt1.TOP_NUM)).sum ≤
      (batches.map (batchHits opt2.TOP_NUM)).sum :=
    sum_map_le_sum_map _ _ (fun b => countP_le_countP hhit _) batches
  have hcast : ((batches.map (batchHits opt1.TOP_NUM)).sum : Rat) ≤
      ((batches.map (batchHits opt2.TOP_NUM)).sum : Rat) := by
    exact_mod_cast hsum
  simp only [validate]
  rw [hN, div_eq_mul_inv, div_eq_mul_inv]
  exact mul_le_mul_of_nonneg_right hcast (inv_nonneg.mpr (Nat.cast_nonneg _))

def c8OptA : Opt := ⟨"r/", "M", "01", 1, 1, 1, 1/2, true, true⟩

def c8OptB : Opt := ⟨"r/", "M", "01", 1, 1, 2, 1/2, true, true⟩

def c8Crit : List (List Rat) → List Nat → Rat := fun _ _ => 0

def c8Batches : List (List (List Rat) × List Nat) := [([[1, 2]], [0])]

/-- C8 witness: concrete configurations with TOP_NUM 1 and 2 over one batch. -/
theorem validate_topk_acc_monotone_witness :
    c8OptA.TOP_NUM ≤ c8OptB.TOP_NUM ∧ c8OptA.NUM_EVAL = c8OptB.NUM_EVAL ∧
    (validate c8OptA c8Crit c8Batches).2 ≤ (validate c8OptB c8Crit c8Batches).2 :=
  ⟨by decide, by decide,
   validate_topk_acc_monotone c8OptA c8OptB c8Crit c8Batches (by decide) (by decide)⟩

/-- Epoch-checkpoint decision in BasicModule.fit (lines 309-311): every
SAVE_EVERY epochs, submit the SaveTask (pre_epoch + epoch + 1,
eval_loss / NUM_EVAL) through mt_save, where eval_loss is the value validate
returned for this epoch. -/
def fitEpochCheckpoint (opt : Opt) (preEpoch epoch : Nat) (evalLoss : Rat) :
    Option (Nat × Rat) :=
  if epoch % opt.SAVE_EVERY = 0 then
    some (preEpoch + epoch + 1, evalLoss / (opt.NUM_EVAL : Rat))
  else none

/-- The SaveTask submitted for one epoch of fit: validate composed with the
checkpoint decision (fit lines 296 and 309-311). -/
def fitEpochSubmission (opt : Opt) (crit : List (List Rat) → List Nat → Rat)
    (preEpoch epoch : Nat) (batches : List (List (List Rat) × List Nat)) :
    Option (Nat × Rat) :=
  fitEpochCheckpoint opt preEpoch epoch (validate opt crit batches).1

def c2Opt : Opt := ⟨"r/", "M", "01", 1, 2, 1, 1/2, true, true⟩

def c2Crit : List (List Rat) → List Nat → Rat := fun _ _ => 4

def c2Batches : List (List (List Rat) × List Nat) := [([[1]], [0])]

/-- C2 evidence: a SaveTask is submitted exactly when the epoch falls on the
save interval, but the loss it carries is the validate return divided by
NUM_EVAL a second time: with NUM_EVAL = 2 and validation loss sum 4, the
normalized eval loss is 2 while the submitted task carries 1. -/
theorem fit_submission_carries_doubly_normalized_loss :
    (∀ (opt : Opt) (preEpoch epoch : Nat) (evalLoss : Rat),
        (fitEpochCheckpoint opt preEpoch epoch evalLoss).isSome =
          decide (epoch % opt.SAVE_EVERY = 0)) ∧
    (validate c2Opt c2Crit c2Batches).1 = 2 ∧
    fitEpochSubmission c2Opt c2Crit 0 0 c2Batches = some (1, 1) ∧
    ¬ ((1 : Rat) = 2) := by
  refine ⟨?_, ?_, ?_, by norm_num⟩
  · intro opt pe e el
    by_cases h : e % opt.SAVE_EVERY = 0 <;> simp [fitEpochCheckpoint, h]
  · norm_num [validate, c2Opt, c2Crit, c2Batches]
  · norm_num [fitEpochSubmission, fitEpochCheckpoint, validate, c2Opt, c2Crit, c2Batches]

/-- scipy.stats.mode over a 1-D array of class votes: the most frequent
value, the smallest of them on ties; none models the empty mode result
whose [0][0] access raises IndexError (vote_eval line 248). -/
def modeOf (l : List Nat) : Option Nat :=
  l.foldl
    (fun acc x =>
      match acc with
      | none => some x
      | some b =>
          if l.count b < l.count x ∨ (l.count x = l.count b ∧ x < b) then some x else some b)
    none

/-- Indices of the views whose top-1 confidence reaches THREADHOLD:
np.where(pred_vals >= self.opt.THREADHOLD) over the batch rows
(vote_eval line 246). -/
def validVoters (opt : Opt) (outputs : List (List Rat)) : List Nat :=
  (outputs.enum.filter (fun pr => opt.THREADHOLD ≤ rowTop1Val pr.2)).map (fun pr => pr.1)

/-- predicts[valid_voters]: the top-1 classes of the kept views
(vote_eval line 247). -/
def validVotes (opt : Opt) (outputs : List (List Rat)) : List Nat :=
  (outputs.enum.filter (fun pr => opt.THREADHOLD ≤ rowTop1Val pr.2)).map (fun pr => rowTop1Idx pr.2)

/-- One batch of BasicModule.vote_eval (lines 244-252): keep the confident
views, take the mode of their classes, and report whether the accuracy
counter increments for the given group label; none models the IndexError
raised by mode(empty)[0][0]. -/
def voteStep (opt : Opt) (outputs : List (List Rat)) (label : Nat) : Option Bool :=
  (modeOf (validVotes opt outputs)).map (fun res => label == res)

def c9Opt : Opt := ⟨"r/", "M", "01", 1, 1, 1, mkRat 1 2, true, true⟩

/-- Six views over ten classes whose top-1 confidences are
[0.9, 0.8, 0.95, 0.4, 0.3, 0.85] at top-1 classes [1, 1, 2, 1, 9, 1]. -/
def c9Outputs : List (List Rat) :=
  [[0, mkRat 9 10, 0, 0, 0, 0, 0, 0, 0, 0],
   [0, mkRat 8 10, 0, 0, 0, 0, 0, 0, 0, 0],
   [0, 0, mkRat 19 20, 0, 0, 0, 0, 0, 0, 0],
   [0, mkRat 4 10, 0, 0, 0, 0, 0, 0, 0, 0],
   [0, 0, 0, 0, 0, 0, 0, 0, 0, mkRat 3 10],
   [0, mkRat 17 20, 0, 0, 0, 0, 0, 0, 0, 0]]

/-- C9: on the six-view batch with confidences [0.9, 0.8, 0.95, 0.4, 0.3,
0.85], threshold 0.5 and top-1 classes [1, 1, 2, 1, 9, 1], the kept views are
exactly indices [0, 1, 2, 5] with classes [1, 1, 2, 1], the majority-vote
class is 1, and the accuracy counter increments exactly when the group's true
label is 1. -/
theorem vote_eval_six_view_scenario :
    validVoters c9Opt c9Outputs = [0, 1, 2, 5] ∧
    validVotes c9Opt c9Outputs = [1, 1, 2, 1] ∧
    modeOf (validVotes c9Opt c9Outputs) = some 1 ∧
    ∀ label : Nat, voteStep c9Opt c9Outputs label = some (label == 1) := by
  refine ⟨by decide, by decide, by decide, ?_⟩
  intro label
  have h : modeOf (validVotes c9Opt c9Outputs) = some 1 := by decide
  simp [voteStep, h]

def c3Opt : Opt := ⟨"r/", "M", "01", 1, 1, 1, mkRat 1 2, true, true⟩

/-- Six views over ten classes, every top-1 confidence 0.4, all below the
0.5 threshold. -/
def c3Outputs : List (List Rat) :=
  [[0, mkRat 2 5, 0, 0, 0, 0, 0, 0, 0, 0],
   [0, mkRat 2 5, 0, 0, 0, 0, 0, 0, 0, 0],
   [0, 0, mkRat 2 5, 0, 0, 0, 0, 0, 0, 0],
   [0, mkRat 2 5, 0, 0, 0, 0, 0, 0, 0, 0],
   [0, 0, 0, 0, 0, 0, 0, 0, 0, mkRat 2 5],
   [0, mkRat 2 5, 0, 0, 0, 0, 0, 0, 0, 0]]

/-- C3 evidence: when no view's top-1 confidence reaches the threshold, the
kept vote set is empty and the batch step of vote_eval yields no result:
mode of the empty vote array has an empty mode field and the [0][0] access in
the source raises IndexError instead of any defined fallback. -/
theorem vote_eval_empty_vote_set_has_no_result :
    validVotes c3Opt c3Outputs = [] ∧
    modeOf (validVotes c3Opt c3Outputs) = none ∧
    voteStep c3Opt c3Outputs 1 = none := by
  refine ⟨by decide, by decide, by decide⟩

/-- The best_loss sentinel set in BasicModule.__init__ (line 61: 1e8). -/
def initBestLoss : Rat := 100000000

/-- Best-loss update of the tail of mt_save, run after starting the saver
thread (lines 144-146): if SAVE_BEST_MODEL and loss < best_loss then
best_loss = loss. -/
def mtMainBestUpdate (opt : Opt) (loss b : Rat) : Rat :=
  if opt.SAVE_BEST_MODEL = true ∧ loss < b then loss else b

/-- Best-loss effect of MyThread.run (lines 34-46): when SAVE_TEMP_MODEL the
inner save applies save's own update (lines 105-106); then, when
SAVE_BEST_MODEL and the task's loss beats bs_old (the best_loss captured at
task creation, line 142), best_loss is set to the task's loss (line 40). -/
def threadRunBestUpdate (opt : Opt) (loss bsOld b : Rat) : Rat :=
  let b1 := if opt.SAVE_TEMP_MODEL = true then saveBestUpdate loss b else b
  if opt.SAVE_BEST_MODEL = true ∧ loss < bsOld then loss else b1

/-- The operations of a run that write best_loss: a direct save call, or an
mt_save call together with the MyThread it spawns.  threadFirst selects which
of the two writers of one mt_save call (the spawned MyThread.run and the tail
of mt_save) executes first; the join on the previous thread (line 141) makes
any interleaving across distinct mt_save calls impossible, so a run trace is
a list of these operations. -/
inductive BestOp where
  | directSave (loss : Rat)
  | mtSaveCall (threadFirst : Bool) (loss : Rat)

/-- Effect of one operation on best_loss; for mt_save the captured bs_old is
the best_loss current at the call, and the two legal interleavings compose
the two updates in either order. -/
def applyBestOp (opt : Opt) (b : Rat) : BestOp → Rat
  | BestOp.directSave loss => saveBestUpdate loss b
  | BestOp.mtSaveCall threadFirst loss =>
      if threadFirst = true then mtMainBestUpdate opt loss (threadRunBestUpdate opt loss b b)
      else threadRunBestUpdate opt loss b (mtMainBestUpdate opt loss b)

/-- best_loss after a trace of operations, starting from the 1e8 sentinel. -/
def bestLossAfter (opt : Opt) (ops : List BestOp) : Rat :=
  ops.foldl (applyBestOp opt) initBestLoss

theorem saveBestUpdate_le (loss b : Rat) : saveBestUpdate loss b ≤ b := by
  unfold saveBestUpdate
  split_ifs with h
  · exact le_of_lt h
  · exact le_refl b

theorem mtMainBestUpdate_le (opt : Opt) (loss b : Rat) : mtMainBestUpdate opt loss b ≤ b := by
  unfold mtMainBestUpdate
  split_ifs with h
  · exact le_of_lt h.2
  · exact le_refl b

theorem threadRunBestUpdate_le (opt : Opt) (loss bsOld b c : Rat)
    (hb : b ≤ c) (hbs : bsOld ≤ c) : threadRunBestUpdate opt loss bsOld b ≤ c := by
  show (if opt.SAVE_BEST_MODEL = true ∧ loss < bsOld then loss
        else if opt.SAVE_TEMP_MODEL = true then saveBestUpdate loss b else b) ≤ c
  split_ifs with h1 h2
  · exact le_trans (le_of_lt h1.2) hbs
  · exact le_trans (saveBestUpdate_le loss b) hb
  · exact hb

theorem applyBestOp_le (opt : Opt) (b : Rat) (op : BestOp) : applyBestOp opt b op ≤ b := by
  cases op with
  | directSave loss => exact saveBestUpdate_le loss b
  | mtSaveCall tf loss =>
    cases tf with
    | true =>
      show mtMainBestUpdate opt loss (threadRunBestUpdate opt loss b b) ≤ b
      exact le_trans (mtMainBestUpdate_le opt loss _)
        (threadRunBestUpdate_le opt loss b b b (le_refl b) (le_refl b))
    | false =>
      show threadRunBestUpdate opt loss b (mtMainBestUpdate opt loss b) ≤ b
      exact threadRunBestUpdate_le opt loss b _ b (mtMainBestUpdate_le opt loss b) (le_refl b)

theorem foldl_applyBestOp_le (opt : Opt) (ops : List BestOp) :
    ∀ b : Rat, ops.foldl (applyBestOp opt) b ≤ b := by
  induction ops with
  | nil => intro b; exact le_refl b
  | cons a t ih =>
    intro b
    exact le_trans (ih (applyBestOp opt b a)) (applyBestOp_le opt b a)

/-- C7: once best_loss is initialized to the 1e8 sentinel, every operation of
the run that touches it (direct save, mt_save and its background thread, in
either legal interleaving) leaves best_loss less than or equal to its
previous value, so best_loss is monotonically non-increasing along every run
trace. -/
theorem best_loss_monotone_nonincreasing (opt : Opt) :
    bestLossAfter opt [] = initBestLoss ∧
    (∀ (b : Rat) (op : BestOp), applyBestOp opt b op ≤ b) ∧
    (∀ ops more : List BestOp, bestLossAfter opt (ops ++ more) ≤ bestLossAfter opt ops) := by
  refine ⟨rfl, applyBestOp_le opt, ?_⟩
  intro ops more
  rw [bestLossAfter, List.foldl_append]
  exact foldl_applyBestOp_le opt more _

/-- Join-before-start discipline of mt_save (lines 140-143) over global clock
instants: the k-th SaveTask's critical section (the lock-protected body of
MyThread.run) begins no earlier than its submission subT k (Thread.start is
called after the task is appended), it ends at endT k, and mt_save joins the
previously submitted thread before submitting the next one, so task k has
ended by the time submission k+1 happens. -/
def MtJoinDiscipline (subT runT endT : Nat → Nat) : Prop :=
  (∀ k, subT k ≤ runT k) ∧ (∀ k, runT k ≤ endT k) ∧ (∀ k, endT k ≤ subT (k + 1))

/-- SaveTask k is inside its critical section at instant t. -/
def TaskRunningAt (runT endT : Nat → Nat) (k t : Nat) : Prop :=
  runT k ≤ t ∧ t < endT k

/-- C6: under the join-before-start discipline of mt_save, SaveTasks execute
in submission order (every earlier task has ended before a later one starts)
and at most one SaveTask is inside its critical section at any instant. -/
theorem mt_save_tasks_serialized (subT runT endT : Nat → Nat)
    (h : MtJoinDiscipline subT runT endT) :
    (∀ i j, i < j → endT i ≤ runT j) ∧
    (∀ t i j, TaskRunningAt runT endT i t → TaskRunningAt runT endT j t → i = j) := by
  obtain ⟨h1, h2, h3⟩ := h
  have key : ∀ i j, i < j → endT i ≤ runT j := by
    intro i j hij
    have step : ∀ d, endT i ≤ runT (i + 1 + d) := by
      intro d
      induction d with
      | zero => exact le_trans (h3 i) (h1 (i + 1))
      | succ d ih =>
        exact le_trans ih (le_trans (h2 (i + 1 + d)) (le_trans (h3 (i + 1 + d)) (h1 (i + 1 + d + 1))))
    obtain ⟨d, rfl⟩ : ∃ d, j = i + 1 + d := ⟨j - i - 1, by omega⟩
    exact step d
  refine ⟨key, ?_⟩
  intro t i j hi hj
  by_contra hne
  obtain ⟨hi1, hi2⟩ := hi
  obtain ⟨hj1, hj2⟩ := hj
  rcases Nat.lt_or_ge i j with hij | hij
  · have := key i j hij
    omega
  · have hji : j < i := by omega
    have := key j i hji
    omega

def c6Sub : Nat → Nat := fun k => 3 * k

def c6Run : Nat → Nat := fun k => 3 * k + 1

def c6End : Nat → Nat := fun k => 3 * k + 2

/-- C6 witness: a concrete schedule satisfying the join discipline, on which
the theorem yields that task 0 has ended before task 1 starts. -/
theorem mt_save_tasks_serialized_witness :
    MtJoinDiscipline c6Sub c6Run c6End ∧ c6End 0 ≤ c6Run 1 :=
  have hd : MtJoinDiscipline c6Sub c6Run c6End :=
    ⟨fun k => by unfold c6Sub c6Run; omega,
     fun k => by unfold c6Run c6End; omega,
     fun k => by unfold c6End c6Sub; omega⟩
  ⟨hd, (mt_save_tasks_serialized c6Sub c6Run c6End hd).1 0 1 (by omega)⟩

/-- The Six_Batch dataset (src/data_loader.py lines 12-42): the underlying
DatasetFolder samples (path, target), the image loader, and the optional
transform and target_transform. -/
structure SixBatch (Img Tgt : Type) where
  samples : List (String × Tgt)
  loader : String → Img
  transform : Option (Img → Img)
  target_transform : Option (Tgt → Tgt)

/-- Application of an optional transform, as in the `if ... is not None`
guards of Six_Batch.__getitem__ (lines 37-40). -/
def applyOptF {A : Type} (f : Option (A → A)) (a : A) : A :=
  match f with
  | some g => g a
  | none => a

/-- Six_Batch.__len__ (lines 21-22): len(self.samples) * 6. -/
def SixBatch.len {Img Tgt : Type} (d : SixBatch Img Tgt) : Nat :=
  d.samples.length * 6

/-- Six_Batch.__getitem__ (lines 24-42): ori_index = index // 6, batch_index
= index % 6, sample = divide_func(batch_index)(loader(path), 224), then the
optional transform and target_transform.  divide_func itself lives in
utils/utils.py and stays an abstract parameter. -/
def SixBatch.getItem {Img Tgt : Type} (d : SixBatch Img Tgt)
    (divide_func : Nat → Img → Nat → Img) (index : Nat) : Option (Img × Tgt) :=
  match d.samples[index / 6]? with
  | none => none
  | some (path, target) =>
      some (applyOptF d.transform (divide_func (index % 6) (d.loader path) 224),
            applyOptF d.target_transform target)

/-- C10: Six_Batch over n underlying samples has length 6·n, every index
below 6·n yields an item, and index 6·k + j (j < 6) yields view j of
underlying sample k (divide_func j applied to the loaded image at size 224,
then the optional transform) together with sample k's target when no
target_transform is configured — so indices 6k..6k+5 are the six views of
sample k and all carry its label. -/
theorem six_batch_indexing {Img Tgt : Type} (d : SixBatch Img Tgt)
    (divide_func : Nat → Img → Nat → Img) :
    SixBatch.len d = 6 * d.samples.length ∧
    (∀ i, i < 6 * d.samples.length → (SixBatch.getItem d divide_func i).isSome = true) ∧
    (∀ k j p t, d.samples[k]? = some (p, t) → j < 6 → d.target_transform = none →
        SixBatch.getItem d divide_func (6 * k + j) =
          some (applyOptF d.transform (divide_func j (d.loader p) 224), t)) := by
  refine ⟨by simp [SixBatch.len, Nat.mul_comm], ?_, ?_⟩
  · intro i hi
    have hlt : i / 6 < d.samples.length := by omega
    obtain ⟨pr, hpt⟩ : ∃ pr, d.samples[i / 6]? = some pr :=
      ⟨_, List.getElem?_eq_getElem hlt⟩
    obtain ⟨p, t⟩ := pr
    simp [SixBatch.getItem, hpt]
  · intro k j p t hk hj htt
    have h6 : (6 * k + j) / 6 = k := by omega
    have h7 : (6 * k + j) % 6 = j := by omega
    simp [SixBatch.getItem, h6, h7, hk, htt, applyOptF]

def c10Data : SixBatch Nat Nat := ⟨[("ab", 7)], String.length, none, none⟩

def c10Divide : Nat → Nat → Nat → Nat := fun j img sz => j * 1000 + img + sz

/-- C10 witness: a one-sample dataset with an abstract view function
evaluated at index 2 = 6·0 + 2. -/
theorem six_batch_indexing_witness :
    c10Data.samples[0]? = some ("ab", 7) ∧ 2 < 6 ∧ c10Data.target_transform = none ∧
    SixBatch.getItem c10Data c10Divide (6 * 0 + 2) =
      some (applyOptF c10Data.transform (c10Divide 2 (c10Data.loader "ab") 224), 7) :=
  ⟨rfl, by omega, rfl,
   (six_batch_indexing c10Data c10Divide).2.2 0 2 "ab" 7 rfl (by omega) rfl⟩
